import Mathlib

/-!
Verification of the single-endpoint FastAPI service in src/app/main.py.

The module under verification registers one route, GET "/", whose handler
returns a dict with a constant greeting and the hostname obtained from
socket.gethostname().  We embed the handler and the standard framework
dispatch around it (routing, 404/405 for unregistered routes, 500 on an
uncaught handler exception) as pure Lean functions, plus an
effect-instrumented variant used to state the absence of side effects.
-/

/-- A JSON value as far as this service produces them: every field of every
body emitted by the service is a string, and `null` is included so that
"the field is a non-null string" is a meaningful statement. -/
inductive JsonVal where
  | null : JsonVal
  | str : String → JsonVal
deriving DecidableEq, Repr

/-- A flat JSON object, as produced by the Python dict literal in the
handler (Python dicts preserve insertion order). -/
abbrev JsonObj := List (String × JsonVal)

/-- The keys of a JSON object, in order. -/
def JsonObj.keys (o : JsonObj) : List String := o.map Prod.fst

/-- An HTTP response body: either a JSON object (the framework serializes
the handler's dict, and its own 404/405 detail objects, as JSON) or plain
text (the generic 500 body produced by the error middleware). -/
inductive Body where
  | json : JsonObj → Body
  | text : String → Body
deriving DecidableEq, Repr

/-- The keys of a response body when it is a JSON object. -/
def Body.jsonKeys : Body → Option (List String)
  | .json o => some o.keys
  | .text _ => none

/-- The operating environment visible to the process.  `gethostname` is the
result of the `socket.gethostname()` system call at the moment the handler
runs: `some h` when the call returns the host identity `h`, `none` when the
runtime cannot determine the host identity and the call raises `OSError`. -/
structure Env where
  gethostname : Option String
deriving DecidableEq, Repr

/-- An inbound HTTP request.  The handler in the source takes no
parameters, so only `method` and `path` can influence dispatch; query
parameters, headers and body are carried here to state that fact. -/
structure Request where
  method : String
  path : String
  queryParams : List (String × String)
  headers : List (String × String)
  reqBody : String
deriving DecidableEq, Repr

/-- An HTTP response: status code, content type and body. -/
structure Response where
  status : Nat
  contentType : String
  body : Body
deriving DecidableEq, Repr

/-- Embedding of `read_root` in src/app/main.py:

    def read_root():
        return {"message": "Hello from FastAPI", "hostname": socket.gethostname()}

The dict literal is evaluated left to right; if `socket.gethostname()`
raises, the exception propagates out of the handler (`Except.error`). -/
def read_root (env : Env) : Except Unit JsonObj :=
  match env.gethostname with
  | some h => .ok [("message", .str "Hello from FastAPI"), ("hostname", .str h)]
  | none => .error ()

/-- The standard "Not Found" response the framework returns for a path
with no registered route. -/
def notFoundResponse : Response :=
  ⟨404, "application/json", .json [("detail", .str "Not Found")]⟩

/-- The standard "Method Not Allowed" response the framework returns for a
registered path with an unregistered method. -/
def methodNotAllowedResponse : Response :=
  ⟨405, "application/json", .json [("detail", .str "Method Not Allowed")]⟩

/-- The generic 500 response the framework's error middleware returns when
a handler raises an uncaught exception. -/
def internalServerErrorResponse : Response :=
  ⟨500, "text/plain", .text "Internal Server Error"⟩

/-- How the framework turns the outcome of the handler into a response:
a returned dict is serialized as a 200 JSON response; an uncaught
exception becomes the generic 500 response. -/
def renderResult : Except Unit JsonObj → Response
  | .ok o => ⟨200, "application/json", .json o⟩
  | .error _ => internalServerErrorResponse

/-- Dispatch of one request by the application object built in
src/app/main.py.  The module registers exactly one route, GET "/", mapped
to `read_root`, and defines no custom handling for any other case: the
framework supplies its standard 404 for an unknown path and 405 for a
known path with an unsupported method. -/
def handleRequest (env : Env) (req : Request) : Response :=
  if req.path = "/" then
    if req.method = "GET" then renderResult (read_root env)
    else methodNotAllowedResponse
  else notFoundResponse

/-- The value of the "hostname" field of a JSON response body, when
present. -/
def Response.hostnameField (r : Response) : Option JsonVal :=
  match r.body with
  | .json o => o.lookup "hostname"
  | .text _ => none

/-- The value of the "message" field of a JSON response body, when
present. -/
def Response.messageField (r : Response) : Option JsonVal :=
  match r.body with
  | .json o => o.lookup "message"
  | .text _ => none

/-- Observable process state used to instrument the handler for side
effects: files written to disk, outbound calls to external services, and
the mutable program (module/global) state. -/
structure ProcState where
  diskWrites : List String
  externalCalls : List String
  globals : List (String × String)
deriving DecidableEq, Repr

/-- Effect-instrumented embedding of the `socket.gethostname()` call: it
reads the host identity from the environment and performs no write, no
external call and no mutation, so the process state passes through. -/
def gethostname_eff (env : Env) (s : ProcState) : Option String × ProcState :=
  (env.gethostname, s)

/-- Effect-instrumented embedding of `read_root`, threading the process
state through each operation of the body.  The body consists of one
`socket.gethostname()` call and the construction of a dict literal;
neither writes to disk, calls out, or assigns to any program state. -/
def read_root_eff (env : Env) (s : ProcState) :
    Except Unit JsonObj × ProcState :=
  match gethostname_eff env s with
  | (some h, s1) =>
      (.ok [("message", .str "Hello from FastAPI"), ("hostname", .str h)], s1)
  | (none, s1) => (.error (), s1)

/-- Effect-instrumented dispatch: routing itself touches no process state,
and the only code run is the instrumented handler. -/
def handleRequest_eff (env : Env) (s : ProcState) (req : Request) :
    Response × ProcState :=
  if req.path = "/" then
    if req.method = "GET" then
      match read_root_eff env s with
      | (r, s1) => (renderResult r, s1)
    else (methodNotAllowedResponse, s)
  else (notFoundResponse, s)

/-- A fixed sample environment used by witnesses. -/
def envA : Env := ⟨some "host-a"⟩

/-- A second sample environment with a different host identity. -/
def envB : Env := ⟨some "host-b"⟩

/-- An environment in which hostname resolution fails. -/
def envFail : Env := ⟨none⟩

/-- A plain GET request for "/". -/
def getRootReq : Request := ⟨"GET", "/", [], [], ""⟩

/-- C1: every GET / request (in an environment where hostname resolution
succeeds, returning `hn`) yields status 200, content-type
application/json, and a JSON body with exactly the keys "message" and
"hostname", where "message" is the literal string "Hello from FastAPI"
and "hostname" is the resolved host identity `hn`. -/
theorem getRoot_response_shape (env : Env) (req : Request) (hn : String)
    (hres : env.gethostname = some hn)
    (hm : req.method = "GET") (hp : req.path = "/") :
    (handleRequest env req).status = 200 ∧
    (handleRequest env req).contentType = "application/json" ∧
    (handleRequest env req).body.jsonKeys = some ["message", "hostname"] ∧
    (handleRequest env req).messageField = some (.str "Hello from FastAPI") ∧
    (handleRequest env req).hostnameField = some (.str hn) := by
  simp [handleRequest, hp, hm, read_root, hres, renderResult, Body.jsonKeys,
    JsonObj.keys, Response.messageField, Response.hostnameField, List.lookup]

/-- Witness for C1 at a concrete environment and request. -/
theorem getRoot_response_shape_witness :
    (handleRequest envA getRootReq).status = 200 ∧
    (handleRequest envA getRootReq).contentType = "application/json" ∧
    (handleRequest envA getRootReq).body.jsonKeys =
      some ["message", "hostname"] ∧
    (handleRequest envA getRootReq).messageField =
      some (.str "Hello from FastAPI") ∧
    (handleRequest envA getRootReq).hostnameField = some (.str "host-a") :=
  getRoot_response_shape envA getRootReq "host-a" rfl rfl rfl

/-- C2: for every GET / request, the "hostname" field of the response
equals the host identity the operating environment reports while the
handler runs, and is non-empty whenever that reported identity is (as the
operating environment guarantees for a host name). -/
theorem getRoot_hostname_is_env_identity (env : Env) (req : Request)
    (hn : String) (hres : env.gethostname = some hn) (hne : hn ≠ "")
    (hm : req.method = "GET") (hp : req.path = "/") :
    (handleRequest env req).hostnameField = some (.str hn) ∧
    ∀ s : String, (handleRequest env req).hostnameField = some (.str s) →
      s ≠ "" := by
  have hfield : (handleRequest env req).hostnameField = some (.str hn) := by
    simp [handleRequest, hp, hm, read_root, hres, renderResult,
      Response.hostnameField, List.lookup]
  refine ⟨hfield, ?_⟩
  intro s hs
  rw [hfield] at hs
  cases hs
  exact hne

/-- Witness for C2 at a concrete environment and request. -/
theorem getRoot_hostname_is_env_identity_witness :
    (handleRequest envA getRootReq).hostnameField = some (.str "host-a") ∧
    ∀ s : String, (handleRequest envA getRootReq).hostnameField =
      some (.str s) → s ≠ "" :=
  getRoot_hostname_is_env_identity envA getRootReq "host-a" rfl
    (by decide) rfl rfl

/-- C3: when hostname resolution fails during a GET / request, the
uncaught exception is converted by the framework into a generic 500
response for that request alone; dispatch is a total function, so the
process does not crash and the behavior is the same on every such
request. -/
theorem getRoot_resolution_failure (env : Env) (req : Request)
    (hres : env.gethostname = none)
    (hm : req.method = "GET") (hp : req.path = "/") :
    handleRequest env req = internalServerErrorResponse ∧
    (handleRequest env req).status = 500 ∧
    (handleRequest env req).body = .text "Internal Server Error" := by
  simp [handleRequest, hp, hm, read_root, hres, renderResult,
    internalServerErrorResponse]

/-- Witness for C3 at a concrete failing environment. -/
theorem getRoot_resolution_failure_witness :
    handleRequest envFail getRootReq = internalServerErrorResponse ∧
    (handleRequest envFail getRootReq).status = 500 ∧
    (handleRequest envFail getRootReq).body =
      .text "Internal Server Error" :=
  getRoot_resolution_failure envFail getRootReq rfl rfl rfl

/-- C4: any two invocations of the GET / handler against the same running
instance (same environment) produce identical responses: same message
value and same hostname value, with no cross-request interference. -/
theorem getRoot_deterministic (env : Env) (r1 r2 : Request)
    (hm1 : r1.method = "GET") (hp1 : r1.path = "/")
    (hm2 : r2.method = "GET") (hp2 : r2.path = "/") :
    handleRequest env r1 = handleRequest env r2 ∧
    (handleRequest env r1).messageField =
      (handleRequest env r2).messageField ∧
    (handleRequest env r1).hostnameField =
      (handleRequest env r2).hostnameField := by
  have h : handleRequest env r1 = handleRequest env r2 := by
    simp [handleRequest, hp1, hm1, hp2, hm2]
  exact ⟨h, by rw [h], by rw [h]⟩

/-- Witness for C4 at two concrete GET / requests differing in headers. -/
theorem getRoot_deterministic_witness :
    handleRequest envA getRootReq =
      handleRequest envA ⟨"GET", "/", [], [("x-req", "2")], ""⟩ ∧
    (handleRequest envA getRootReq).messageField =
      (handleRequest envA ⟨"GET", "/", [], [("x-req", "2")], ""⟩).messageField ∧
    (handleRequest envA getRootReq).hostnameField =
      (handleRequest envA ⟨"GET", "/", [], [("x-req", "2")], ""⟩).hostnameField :=
  getRoot_deterministic envA getRootReq ⟨"GET", "/", [], [("x-req", "2")], ""⟩
    rfl rfl rfl rfl

/-- C5: a request for any path other than "/" receives the framework's
standard Not Found response, and a request for "/" with any method other
than GET receives the framework's standard Method Not Allowed response;
dispatch is total, so no unregistered route crashes the service. -/
theorem unregistered_route_handling (env : Env) (req : Request) :
    (req.path ≠ "/" → handleRequest env req = notFoundResponse) ∧
    (req.path = "/" → req.method ≠ "GET" →
      handleRequest env req = methodNotAllowedResponse) := by
  constructor
  · intro hp
    simp [handleRequest, hp]
  · intro hp hm
    simp [handleRequest, hp, hm]

/-- Witness for C5: a GET on an unknown path gets 404 and a POST on "/"
gets 405, at concrete inputs. -/
theorem unregistered_route_handling_witness :
    handleRequest envA ⟨"GET", "/nonexistent", [], [], ""⟩ =
      notFoundResponse ∧
    handleRequest envA ⟨"POST", "/", [], [], ""⟩ =
      methodNotAllowedResponse :=
  ⟨(unregistered_route_handling envA ⟨"GET", "/nonexistent", [], [], ""⟩).1
      (by decide),
   (unregistered_route_handling envA ⟨"POST", "/", [], [], ""⟩).2 rfl
      (by decide)⟩

/-- C6: the response depends on no data carried by the request: for any
method and path, two requests differing arbitrarily in query parameters,
headers and body receive the same response in the same environment. -/
theorem response_ignores_request_data (env : Env) (m p : String)
    (q1 h1 : List (String × String)) (b1 : String)
    (q2 h2 : List (String × String)) (b2 : String) :
    handleRequest env ⟨m, p, q1, h1, b1⟩ =
      handleRequest env ⟨m, p, q2, h2, b2⟩ := by
  simp [handleRequest]

/-- C7: handling a GET / request has no side effect beyond the response:
the instrumented handler performs no disk write, no external call and no
mutation of program state — it returns the process state unchanged — and
its result agrees with the pure handler. -/
theorem handler_no_side_effects (env : Env) (s : ProcState)
    (req : Request) :
    (handleRequest_eff env s req).2 = s ∧
    (read_root_eff env s).2 = s ∧
    (handleRequest_eff env s req).1 = handleRequest env req := by
  cases env with
  | mk g =>
    cases g <;>
      simp only [handleRequest_eff, handleRequest, read_root_eff,
        gethostname_eff, read_root] <;>
      split <;> first
        | (constructor <;> split <;> simp)
        | simp

/-- C8: for every GET / request (with hostname resolution succeeding),
the body is a JSON object whose "message" and "hostname" fields are both
present, non-null strings. -/
theorem response_fields_are_strings (env : Env) (req : Request)
    (hn : String) (hres : env.gethostname = some hn)
    (hm : req.method = "GET") (hp : req.path = "/") :
    ∃ o : JsonObj, (handleRequest env req).body = .json o ∧
      o.lookup "message" = some (.str "Hello from FastAPI") ∧
      o.lookup "hostname" = some (.str hn) ∧
      (∀ v : JsonVal, o.lookup "message" = some v → v ≠ .null) ∧
      (∀ v : JsonVal, o.lookup "hostname" = some v → v ≠ .null) := by
  refine ⟨[("message", .str "Hello from FastAPI"), ("hostname", .str hn)],
    ?_, ?_, ?_, ?_, ?_⟩
  · simp [handleRequest, hp, hm, read_root, hres, renderResult]
  · simp [List.lookup]
  · simp [List.lookup]
  · intro v hv
    simp [List.lookup] at hv
    simp [← hv]
  · intro v hv
    simp [List.lookup] at hv
    simp [← hv]

/-- Witness for C8 at a concrete environment and request. -/
theorem response_fields_are_strings_witness :
    ∃ o : JsonObj, (handleRequest envA getRootReq).body = .json o ∧
      o.lookup "message" = some (.str "Hello from FastAPI") ∧
      o.lookup "hostname" = some (.str "host-a") ∧
      (∀ v : JsonVal, o.lookup "message" = some v → v ≠ .null) ∧
      (∀ v : JsonVal, o.lookup "hostname" = some v → v ≠ .null) :=
  response_fields_are_strings envA getRootReq "host-a" rfl rfl rfl

/-- C9: the hostname is resolved freshly on each invocation: the
"hostname" field of a response always equals the identity the environment
reports at the time of that request, so after the host identity changes
from one environment to another, the subsequent response carries the new
value rather than any value cached at startup. -/
theorem hostname_resolved_per_request (env env' : Env) (req req' : Request)
    (hn hn' : String)
    (hres : env.gethostname = some hn)
    (hres' : env'.gethostname = some hn')
    (hm : req.method = "GET") (hp : req.path = "/")
    (hm' : req'.method = "GET") (hp' : req'.path = "/") :
    (handleRequest env req).hostnameField = some (.str hn) ∧
    (handleRequest env' req').hostnameField = some (.str hn') := by
  constructor
  · simp [handleRequest, hp, hm, read_root, hres, renderResult,
      Response.hostnameField, List.lookup]
  · simp [handleRequest, hp', hm', read_root, hres', renderResult,
      Response.hostnameField, List.lookup]

/-- Witness for C9: the same request issued under two environments with
different host identities yields the respective current identity each
time. -/
theorem hostname_resolved_per_request_witness :
    (handleRequest envA getRootReq).hostnameField =
      some (.str "host-a") ∧
    (handleRequest envB getRootReq).hostnameField =
      some (.str "host-b") :=
  hostname_resolved_per_request envA envB getRootReq getRootReq
    "host-a" "host-b" rfl rfl rfl rfl rfl rfl

/-- C10: the application dispatches exactly one route: a request matching
(GET, "/") is answered by rendering the result of `read_root`, and every
request not matching (GET, "/") falls through to the framework's standard
Not Found or Method Not Allowed response — no other handler exists. -/
theorem single_route_table (env : Env) (req : Request) :
    ((req.method, req.path) = ("GET", "/") →
      handleRequest env req = renderResult (read_root env)) ∧
    ((req.method, req.path) ≠ ("GET", "/") →
      handleRequest env req = notFoundResponse ∨
      handleRequest env req = methodNotAllowedResponse) := by
  constructor
  · intro h
    have hm : req.method = "GET" := congrArg Prod.fst h
    have hp : req.path = "/" := congrArg Prod.snd h
    simp [handleRequest, hp, hm]
  · intro h
    by_cases hp : req.path = "/"
    · by_cases hm : req.method = "GET"
      · exact absurd (by rw [hm, hp]) h
      · right
        simp [handleRequest, hp, hm]
    · left
      simp [handleRequest, hp]

/-- Witness for C10: at concrete inputs, the one registered route renders
the handler result and a non-matching request gets a standard error
response. -/
theorem single_route_table_witness :
    handleRequest envA getRootReq = renderResult (read_root envA) ∧
    (handleRequest envA ⟨"PUT", "/other", [], [], ""⟩ = notFoundResponse ∨
     handleRequest envA ⟨"PUT", "/other", [], [], ""⟩ =
       methodNotAllowedResponse) :=
  ⟨(single_route_table envA getRootReq).1 rfl,
   (single_route_table envA ⟨"PUT", "/other", [], [], ""⟩).2 (by decide)⟩
